import Mathlib

/-!
Verification of the SentinelShield weapon-detection alert pipeline.

We give a shallow embedding of the alert subsystem of
`src/alert_system.py` (class `AlertSystem`) and of the detection entry
point of `src/detector.py` (class `WeaponDetector`), and prove the
spec's claims about them.

Modelling conventions, fixed once for the whole file:

* Wall-clock instants (`time.time()` values) are modelled as `Int`.
  `trigger_alert` reads the clock twice — once inside `can_alert`
  (the gate check, line 78) and once when it stores
  `last_alert_time` (line 115) — so the embedded `trigger_alert`
  takes both instants, `tCheck` and `tSet`, as explicit inputs.
  Within one call the second read happens after the first, which
  theorems express as the hypothesis `tCheck ≤ tSet`.
  The record's stored timestamp (a formatted `datetime` string in the
  Python) is modelled as the acceptance instant `tSet`.
* A numpy frame is modelled by `Frame`: the Python distinguishes
  `None`, a non-`ndarray` value, and an `ndarray` of a given `size`.
* `cv2.imwrite` is an external effect; its outcome is the explicit
  input `saveOk : Bool`, and the path it would write to is the input
  `path : String` (the Python computes `alert_<timestamp>.jpg`).
* Confidence scores are opaque payload, modelled as `Rat`.
* Every method of the Python class is embedded as a function from the
  receiver state to (result, new state), so that "does not mutate"
  is a provable equation rather than a typing accident.
* The sound playback (`_play_sound`, fire-and-forget daemon thread)
  touches neither the gate nor the ledger and is not modelled.
-/

namespace SentinelShield

/-- A numpy frame as `trigger_alert`/`detect` discriminate it:
`None`, some non-`ndarray` object, or an `ndarray` with its `size`. -/
inductive Frame where
  | noneFrame : Frame
  | notArray : Frame
  | array : Nat → Frame
deriving Repr, DecidableEq

/-- `frame is None or not isinstance(frame, np.ndarray)` (line 96). -/
def Frame.isInvalid : Frame → Bool
  | .array _ => false
  | _ => true

/-- `frame.size` (line 100); 0 for the non-array cases, which are
rejected before `size` is read. -/
def Frame.size : Frame → Nat
  | .array n => n
  | _ => 0

/-- The `alert_info` dict built at lines 141-146. -/
structure AlertInfo where
  timestamp : Int
  detections : List String
  confidence_scores : List Rat
  screenshot : Option String
deriving Repr, DecidableEq

/-- The mutable state of `AlertSystem`: the cooldown fixed at
construction, the gate's `last_alert_time`, and the bounded
`alert_log` ledger. -/
structure AlertSystem where
  cooldown : Int
  last_alert_time : Int
  alert_log : List AlertInfo
deriving Repr, DecidableEq

/-- `AlertSystem.__init__` (lines 31-73): a negative cooldown is
replaced by 5; `last_alert_time` starts at 0 and the log empty.
Folder/sound setup touches no state the spec's claims mention. -/
def AlertSystem.init (cooldown : Int) : AlertSystem :=
  { cooldown := if cooldown < 0 then 5 else cooldown
    last_alert_time := 0
    alert_log := [] }

/-- `AlertSystem.can_alert` (lines 75-81): under the lock, read the
clock and compare against `last_alert_time + cooldown`; no field is
written. -/
def AlertSystem.can_alert (s : AlertSystem) (now : Int) : Bool × AlertSystem :=
  (decide (now - s.last_alert_time ≥ s.cooldown), s)

/-- `AlertSystem.trigger_alert` (lines 83-160).
Branches in source order: invalid frame → `None`; empty frame →
`None`; empty detections → `None`; `can_alert` false → `None`;
otherwise set `last_alert_time := tSet`, attempt the screenshot
(`saveOk` decides the `cv2.imwrite` outcome), build `alert_info`
with copies of the argument lists, append it and truncate the log to
its last 100 entries. -/
def AlertSystem.trigger_alert (s : AlertSystem) (frame : Frame)
    (detections : List String) (confidence_scores : List Rat)
    (tCheck tSet : Int) (saveOk : Bool) (path : String) :
    Option AlertInfo × AlertSystem :=
  if frame.isInvalid then (none, s)
  else if frame.size = 0 then (none, s)
  else if detections.isEmpty then (none, s)
  else if !(s.can_alert tCheck).1 then (none, s)
  else
    let s1 : AlertSystem := { s with last_alert_time := tSet }
    let screenshot : Option String := if saveOk then some path else none
    let info : AlertInfo :=
      { timestamp := tSet
        detections := detections
        confidence_scores := confidence_scores
        screenshot := screenshot }
    let log1 := s1.alert_log ++ [info]
    let log2 := if log1.length > 100 then log1.drop (log1.length - 100) else log1
    (some info, { s1 with alert_log := log2 })

/-- `AlertSystem.get_recent_alerts` (lines 170-173): the Python slice
`alert_log[-count:]`.  For `count = 0` the slice `[-0:]` is `[0:]`,
the whole list; for positive `count` it is the last
`min count length` entries. -/
def AlertSystem.get_recent_alerts (s : AlertSystem) (count : Nat) :
    List AlertInfo × AlertSystem :=
  (if s.alert_log.isEmpty then []
   else if count = 0 then s.alert_log
   else s.alert_log.drop (s.alert_log.length - count), s)

/-- `AlertSystem.clear_alerts` (lines 175-179). -/
def AlertSystem.clear_alerts (s : AlertSystem) : AlertSystem :=
  { s with alert_log := [] }

/-- `AlertSystem.get_alert_count` (lines 181-184). -/
def AlertSystem.get_alert_count (s : AlertSystem) : Nat × AlertSystem :=
  (s.alert_log.length, s)

/-- The inputs of one `trigger_alert` call. -/
structure Call where
  frame : Frame
  detections : List String
  scores : List Rat
  tCheck : Int
  tSet : Int
  saveOk : Bool
  path : String
deriving Repr, DecidableEq

/-- Run a sequence of `trigger_alert` calls, collecting every call's
return value. -/
def runTriggers : AlertSystem → List Call → List (Option AlertInfo) × AlertSystem
  | s, [] => ([], s)
  | s, c :: cs =>
    let r := s.trigger_alert c.frame c.detections c.scores c.tCheck c.tSet c.saveOk c.path
    let rest := runTriggers r.2 cs
    (r.1 :: rest.1, rest.2)

/-- The acceptance timestamps of the accepted calls, in call order. -/
def acceptedTimes (outs : List (Option AlertInfo)) : List Int :=
  outs.filterMap (fun o => o.map AlertInfo.timestamp)

/-- Any operation of the `AlertSystem` public interface. -/
inductive Op where
  | trigger (frame : Frame) (detections : List String) (scores : List Rat)
      (tCheck tSet : Int) (saveOk : Bool) (path : String)
  | clear
  | getRecent (count : Nat)
  | getCount
deriving Repr

/-- The state after one interface operation. -/
def AlertSystem.applyOp (s : AlertSystem) : Op → AlertSystem
  | .trigger f d cs tC tS ok p => (s.trigger_alert f d cs tC tS ok p).2
  | .clear => s.clear_alerts
  | .getRecent c => (s.get_recent_alerts c).2
  | .getCount => (s.get_alert_count).2

/-- The state after a sequence of interface operations. -/
def AlertSystem.runOps (s : AlertSystem) (ops : List Op) : AlertSystem :=
  ops.foldl AlertSystem.applyOp s

/-- Erase the screenshot outcome of a record, for comparing ledgers up
to the screenshot field. -/
def forgetShot (r : AlertInfo) : AlertInfo := { r with screenshot := none }

/-- The record an accepted `trigger_alert` call builds (lines 141-146),
as a function of its inputs. -/
def mkInfo (tS : Int) (d : List String) (cs : List Rat) (ok : Bool) (p : String) :
    AlertInfo :=
  { timestamp := tS
    detections := d
    confidence_scores := cs
    screenshot := if ok then some p else none }

/-- The log truncation of lines 152-154: keep only the last 100
entries. -/
def evict (l : List AlertInfo) : List AlertInfo :=
  if l.length > 100 then l.drop (l.length - 100) else l

/- ### Fine-grained interleaving model of the cooldown gate

`trigger_alert` is not one critical section: `can_alert` (lines
77-81) acquires and releases `self._lock`, and the
`last_alert_time` update (lines 114-115) acquires it again.  Between
the two, another thread may run.  The model below makes each
lock-protected section one atomic action and lets a scheduler
interleave threads. -/

/-- Progress of one thread through `trigger_alert`'s gate section:
before its `can_alert` call, after a granting `can_alert` call but
before the `last_alert_time` update, or finished (with its outcome). -/
inductive GatePC where
  | start : GatePC
  | passed : GatePC
  | done : Bool → GatePC
deriving Repr, DecidableEq

/-- One thread inside `trigger_alert`, with the clock values its two
`time.time()` reads will return. -/
structure GateThread where
  pc : GatePC
  tCheck : Int
  tSet : Int
deriving Repr, DecidableEq

/-- One atomic action of a thread: its `can_alert` call (lines 77-81,
one lock acquisition, no mutation) or its `last_alert_time` update
(lines 114-115, a second lock acquisition). -/
def gateThreadStep (s : AlertSystem) (th : GateThread) : AlertSystem × GateThread :=
  match th.pc with
  | .start =>
    if (s.can_alert th.tCheck).1 then (s, { th with pc := .passed })
    else (s, { th with pc := .done false })
  | .passed => ({ s with last_alert_time := th.tSet }, { th with pc := .done true })
  | .done _ => (s, th)

/-- Run the threads under a schedule: at each scheduler step, thread
`i` performs its next atomic action. -/
def runGateSched : AlertSystem → List GateThread → List Nat → AlertSystem × List GateThread
  | s, ths, [] => (s, ths)
  | s, ths, i :: sched =>
    match ths[i]? with
    | none => runGateSched s ths sched
    | some th =>
      runGateSched (gateThreadStep s th).1 (ths.set i (gateThreadStep s th).2) sched

/- ### Shallow embedding of `WeaponDetector` (src/detector.py) -/

/-- The `WeaponDetector` state fields the claims touch: whether
`load_model` succeeded, the configured threshold, the class-name
table, and the running statistics. -/
structure WeaponDetector where
  model_loaded : Bool
  confidence_threshold : Rat
  class_names : List String
  total_detections : Nat
  frame_count : Nat
  error_count : Nat
deriving Repr, DecidableEq

/-- Outcome of the external YOLO inference call
`self.model(frame, ...)` (lines 140-145): it either raises, or
returns boxes, each flattened to (class id, confidence). -/
inductive InferOutcome where
  | raise : InferOutcome
  | results : List (Nat × Rat) → InferOutcome
deriving Repr, DecidableEq

/-- The 4-tuple `detect` returns. -/
structure DetectOut where
  annotated : Frame
  detections : List String
  confidence_scores : List Rat
  has_detection : Bool
deriving Repr, DecidableEq

/-- The `np.zeros((480, 640, 3))` fallback frame of lines 116-124. -/
def blankFrame : Frame := .array (480 * 640 * 3)

/-- Class-name lookup of lines 176-181: the model's name table and the
detector's `class_names` fallback are collapsed into one table;
unknown ids map to `Object_<id>`. -/
def WeaponDetector.className (dt : WeaponDetector) (cid : Nat) : String :=
  match dt.class_names[cid]? with
  | some n => n
  | none => "Object_" ++ toString cid

/-- `WeaponDetector.detect` (lines 100-240).  Branches in source
order: `None`/non-array/empty frame → blank frame with no detections;
model not loaded → copy of the input frame with no detections;
otherwise count the frame and run inference, whose outcome is the
explicit input `inf`.  A raising inference is caught (lines 234-238)
and yields the original frame with no detections; a successful one
yields the per-box labels and confidences.  The annotated frame is
the input frame: drawing boxes (lines 189-232) alters pixels only,
which the `Frame` abstraction does not carry. -/
def WeaponDetector.detect (dt : WeaponDetector) (frame : Frame) (inf : InferOutcome) :
    DetectOut × WeaponDetector :=
  if frame.isInvalid then (⟨blankFrame, [], [], false⟩, dt)
  else if frame.size = 0 then (⟨blankFrame, [], [], false⟩, dt)
  else if dt.model_loaded = false then (⟨frame, [], [], false⟩, dt)
  else
    let d1 : WeaponDetector := { dt with frame_count := dt.frame_count + 1 }
    match inf with
    | .raise => (⟨frame, [], [], false⟩, { d1 with error_count := d1.error_count + 1 })
    | .results boxes =>
      (⟨frame, boxes.map (fun b => dt.className b.1), boxes.map (fun b => b.2),
        !boxes.isEmpty⟩,
       { d1 with total_detections := d1.total_detections + boxes.length })

/- ### Concrete inputs used by witnesses and counterexamples -/

/-- A valid 640×480 BGR frame. -/
def goodFrame : Frame := .array (480 * 640 * 3)

/-- Three `trigger_alert` calls with cooldown 5: accepted at 10,
denied at 12, accepted at 15. -/
def sampleCalls : List Call :=
  [⟨goodFrame, ["pistol"], [mkRat 19 20], 10, 10, true, "alerts/alert_10.jpg"⟩,
   ⟨goodFrame, ["knife"], [mkRat 3 5], 12, 12, true, "alerts/alert_12.jpg"⟩,
   ⟨goodFrame, ["pistol"], [mkRat 9 10], 15, 15, true, "alerts/alert_15.jpg"⟩]

/-- The state after one accepted alert at instant 10 (cooldown 5). -/
def sampleState : AlertSystem :=
  ((AlertSystem.init 5).trigger_alert goodFrame ["pistol"] [mkRat 19 20]
    10 10 true "alerts/alert_10.jpg").2

/-- A loaded two-class detector with threshold 0.5. -/
def sampleDetector : WeaponDetector :=
  { model_loaded := true
    confidence_threshold := mkRat 1 2
    class_names := ["pistol", "knife"]
    total_detections := 0
    frame_count := 0
    error_count := 0 }

/-- A small mixed operation sequence for the ledger-bound witness. -/
def sampleOps : List Op :=
  [.trigger goodFrame ["pistol"] [mkRat 19 20] 10 10 true "alerts/alert_10.jpg",
   .getRecent 5, .getCount,
   .trigger goodFrame ["knife"] [mkRat 3 5] 12 12 true "alerts/alert_12.jpg",
   .trigger goodFrame ["knife"] [mkRat 3 5] 16 16 false "alerts/alert_16.jpg",
   .clear,
   .trigger goodFrame ["pistol"] [mkRat 9 10] 25 25 true "alerts/alert_25.jpg"]

/- ### Characterization lemmas for `trigger_alert` -/

/-- If any rejection condition holds — invalid frame, empty frame,
empty detections, or cooldown not yet elapsed — `trigger_alert`
returns `none` and leaves the state untouched. -/
theorem trigger_reject_eq (s : AlertSystem) (f : Frame) (d : List String)
    (cs : List Rat) (tC tS : Int) (ok : Bool) (p : String)
    (h : f.isInvalid = true ∨ f.size = 0 ∨ d = [] ∨ tC - s.last_alert_time < s.cooldown) :
    s.trigger_alert f d cs tC tS ok p = (none, s) := by
  rcases h with h | h | h | h
  · simp [AlertSystem.trigger_alert, h]
  · by_cases hf : f.isInvalid = true
    · simp [AlertSystem.trigger_alert, hf]
    · simp [AlertSystem.trigger_alert, hf, h]
  · subst h
    simp [AlertSystem.trigger_alert]
  · have hg : ¬ (s.cooldown ≤ tC - s.last_alert_time) := not_le.mpr h
    simp [AlertSystem.trigger_alert, AlertSystem.can_alert, hg]

/-- If every rejection condition is absent, `trigger_alert` accepts:
it returns the new record, sets `last_alert_time` to the set-instant,
appends the record and truncates the log to its last 100 entries. -/
theorem trigger_accept_eq (s : AlertSystem) (f : Frame) (d : List String)
    (cs : List Rat) (tC tS : Int) (ok : Bool) (p : String)
    (hf : f.isInvalid = false) (hs : f.size ≠ 0) (hd : d ≠ [])
    (hg : s.cooldown ≤ tC - s.last_alert_time) :
    s.trigger_alert f d cs tC tS ok p =
      (some (mkInfo tS d cs ok p),
       { cooldown := s.cooldown
         last_alert_time := tS
         alert_log := evict (s.alert_log ++ [mkInfo tS d cs ok p]) }) := by
  have hd' : d.isEmpty = false := by
    cases d with
    | nil => exact absurd rfl hd
    | cons a t => rfl
  simp [AlertSystem.trigger_alert, AlertSystem.can_alert, mkInfo, evict,
    hf, hs, hd', hg, ge_iff_le]

/-- A rejected call (result `none`) leaves the state untouched. -/
theorem trigger_none_snd {s : AlertSystem} {f : Frame} {d : List String}
    {cs : List Rat} {tC tS : Int} {ok : Bool} {p : String}
    (h : (s.trigger_alert f d cs tC tS ok p).1 = none) :
    (s.trigger_alert f d cs tC tS ok p).2 = s := by
  by_cases hf : f.isInvalid = true
  · rw [trigger_reject_eq s f d cs tC tS ok p (Or.inl hf)]
  · by_cases hs : f.size = 0
    · rw [trigger_reject_eq s f d cs tC tS ok p (Or.inr (Or.inl hs))]
    · by_cases hd : d = []
      · rw [trigger_reject_eq s f d cs tC tS ok p (Or.inr (Or.inr (Or.inl hd)))]
      · by_cases hg : tC - s.last_alert_time < s.cooldown
        · rw [trigger_reject_eq s f d cs tC tS ok p (Or.inr (Or.inr (Or.inr hg)))]
        · rw [trigger_accept_eq s f d cs tC tS ok p (Bool.not_eq_true _ ▸ hf) hs hd
            (not_lt.mp hg)] at h
          simp at h

/-- An accepted call (result `some r`) pins down every rejection
condition as absent and identifies the record. -/
theorem trigger_some_cases {s : AlertSystem} {f : Frame} {d : List String}
    {cs : List Rat} {tC tS : Int} {ok : Bool} {p : String} {r : AlertInfo}
    (h : (s.trigger_alert f d cs tC tS ok p).1 = some r) :
    f.isInvalid = false ∧ f.size ≠ 0 ∧ d ≠ [] ∧
    s.cooldown ≤ tC - s.last_alert_time ∧
    r = mkInfo tS d cs ok p := by
  by_cases hf : f.isInvalid = true
  · rw [trigger_reject_eq s f d cs tC tS ok p (Or.inl hf)] at h; simp at h
  · by_cases hs : f.size = 0
    · rw [trigger_reject_eq s f d cs tC tS ok p (Or.inr (Or.inl hs))] at h; simp at h
    · by_cases hd : d = []
      · rw [trigger_reject_eq s f d cs tC tS ok p (Or.inr (Or.inr (Or.inl hd)))] at h
        simp at h
      · by_cases hg : tC - s.last_alert_time < s.cooldown
        · rw [trigger_reject_eq s f d cs tC tS ok p (Or.inr (Or.inr (Or.inr hg)))] at h
          simp at h
        · have hf' : f.isInvalid = false := Bool.not_eq_true _ ▸ hf
          have hg' : s.cooldown ≤ tC - s.last_alert_time := not_lt.mp hg
          rw [trigger_accept_eq s f d cs tC tS ok p hf' hs hd hg'] at h
          simp at h
          exact ⟨hf', hs, hd, hg', h.symm⟩

/-- The state reached by an accepted call. -/
theorem trigger_some_snd {s : AlertSystem} {f : Frame} {d : List String}
    {cs : List Rat} {tC tS : Int} {ok : Bool} {p : String} {r : AlertInfo}
    (h : (s.trigger_alert f d cs tC tS ok p).1 = some r) :
    (s.trigger_alert f d cs tC tS ok p).2.last_alert_time = tS ∧
    (s.trigger_alert f d cs tC tS ok p).2.cooldown = s.cooldown := by
  obtain ⟨hf, hs, hd, hg, _⟩ := trigger_some_cases h
  rw [trigger_accept_eq s f d cs tC tS ok p hf hs hd hg]
  exact ⟨rfl, rfl⟩

/-- `trigger_alert` never changes the cooldown. -/
theorem trigger_cooldown_eq (s : AlertSystem) (f : Frame) (d : List String)
    (cs : List Rat) (tC tS : Int) (ok : Bool) (p : String) :
    (s.trigger_alert f d cs tC tS ok p).2.cooldown = s.cooldown := by
  rcases h : (s.trigger_alert f d cs tC tS ok p).1 with _ | r
  · rw [trigger_none_snd h]
  · exact (trigger_some_snd h).2

/-- Truncation keeps at most 100 entries, and all of them when there
are at most 100. -/
theorem evict_length (l : List AlertInfo) : (evict l).length = min l.length 100 := by
  unfold evict
  split
  · rw [List.length_drop]; omega
  · omega

/-- Truncation keeps a suffix: the most recent entries, in order. -/
theorem evict_suffix (l : List AlertInfo) : evict l <:+ l := by
  unfold evict
  split
  · exact List.drop_suffix _ _
  · exact List.suffix_rfl

/- ### Lemmas for operation sequences -/

/-- No interface operation changes the cooldown. -/
theorem applyOp_cooldown (s : AlertSystem) (o : Op) :
    (s.applyOp o).cooldown = s.cooldown := by
  cases o with
  | trigger f d cs tC tS ok p => exact trigger_cooldown_eq s f d cs tC tS ok p
  | clear => rfl
  | getRecent c => rfl
  | getCount => rfl

/-- No sequence of interface operations changes the cooldown. -/
theorem runOps_cooldown (ops : List Op) :
    ∀ s : AlertSystem, (s.runOps ops).cooldown = s.cooldown := by
  induction ops with
  | nil => intro s; rfl
  | cons o os ih =>
    intro s
    calc ((s.applyOp o).runOps os).cooldown = (s.applyOp o).cooldown := ih _
    _ = s.cooldown := applyOp_cooldown s o

/-- `trigger_alert` keeps the ledger within the capacity bound. -/
theorem trigger_log_le {s : AlertSystem} (hs : s.alert_log.length ≤ 100)
    (f : Frame) (d : List String) (cs : List Rat) (tC tS : Int)
    (ok : Bool) (p : String) :
    (s.trigger_alert f d cs tC tS ok p).2.alert_log.length ≤ 100 := by
  rcases h : (s.trigger_alert f d cs tC tS ok p).1 with _ | r
  · rw [trigger_none_snd h]; exact hs
  · obtain ⟨hf, hsz, hd, hg, _⟩ := trigger_some_cases h
    rw [trigger_accept_eq s f d cs tC tS ok p hf hsz hd hg]
    show (evict _).length ≤ 100
    rw [evict_length]
    omega

/-- Every interface operation keeps the ledger within the bound. -/
theorem applyOp_length_le {s : AlertSystem} (hs : s.alert_log.length ≤ 100)
    (o : Op) : (s.applyOp o).alert_log.length ≤ 100 := by
  cases o with
  | trigger f d cs tC tS ok p => exact trigger_log_le hs f d cs tC tS ok p
  | clear => simp [AlertSystem.applyOp, AlertSystem.clear_alerts]
  | getRecent c => exact hs
  | getCount => exact hs

/-- Every operation sequence keeps the ledger within the bound. -/
theorem runOps_length_le (ops : List Op) :
    ∀ {s : AlertSystem}, s.alert_log.length ≤ 100 →
      (s.runOps ops).alert_log.length ≤ 100 := by
  induction ops with
  | nil => intro s hs; exact hs
  | cons o os ih => intro s hs; exact ih (applyOp_length_le hs o)

/- ### Lemmas for call sequences and the cooldown invariant -/

/-- Along any run, the accepted acceptance instants form a chain in
which each instant exceeds its predecessor (starting from the gate's
`last_alert_time`) by at least the cooldown. -/
theorem runTriggers_chain (calls : List Call) :
    ∀ s : AlertSystem, (∀ c ∈ calls, c.tCheck ≤ c.tSet) →
      List.Chain (fun a b => a + s.cooldown ≤ b) s.last_alert_time
        (acceptedTimes (runTriggers s calls).1) := by
  induction calls with
  | nil =>
    intro s _
    simp [runTriggers, acceptedTimes]
  | cons c cs ih =>
    intro s h
    have hc : c.tCheck ≤ c.tSet := h c (List.mem_cons_self c cs)
    have hcs : ∀ c' ∈ cs, c'.tCheck ≤ c'.tSet :=
      fun c' hm => h c' (List.mem_cons_of_mem c hm)
    rcases ho : (s.trigger_alert c.frame c.detections c.scores c.tCheck c.tSet
        c.saveOk c.path).1 with _ | r
    · have hsnd := trigger_none_snd ho
      show List.Chain _ _ (acceptedTimes
        ((s.trigger_alert c.frame c.detections c.scores c.tCheck c.tSet
          c.saveOk c.path).1 ::
         (runTriggers (s.trigger_alert c.frame c.detections c.scores c.tCheck
           c.tSet c.saveOk c.path).2 cs).1))
      rw [ho, hsnd]
      have := ih s hcs
      simpa [acceptedTimes] using this
    · obtain ⟨hf, hsz, hd, hg, hr⟩ := trigger_some_cases ho
      show List.Chain _ _ (acceptedTimes
        ((s.trigger_alert c.frame c.detections c.scores c.tCheck c.tSet
          c.saveOk c.path).1 ::
         (runTriggers (s.trigger_alert c.frame c.detections c.scores c.tCheck
           c.tSet c.saveOk c.path).2 cs).1))
      rw [ho, trigger_accept_eq s c.frame c.detections c.scores c.tCheck c.tSet
        c.saveOk c.path hf hsz hd hg]
      rw [show acceptedTimes (some r :: _) = r.timestamp :: acceptedTimes _ from rfl]
      subst hr
      apply List.chain_cons.mpr
      refine ⟨by show s.last_alert_time + s.cooldown ≤ c.tSet; omega, ?_⟩
      exact ih
        { cooldown := s.cooldown
          last_alert_time := c.tSet
          alert_log := evict (s.alert_log ++
            [mkInfo c.tSet c.detections c.scores c.saveOk c.path]) } hcs

/-- A chain of cooldown-separated instants, for a non-negative
cooldown, is pairwise separated. -/
theorem chain_pairwise_sep {C : Int} (hC : 0 ≤ C) :
    ∀ {l : List Int} {a : Int}, List.Chain (fun x y => x + C ≤ y) a l →
      l.Pairwise (fun x y => x + C ≤ y) ∧ ∀ b ∈ l, a + C ≤ b := by
  intro l
  induction l with
  | nil => intro a _; exact ⟨List.Pairwise.nil, by simp⟩
  | cons b t ih =>
    intro a hch
    obtain ⟨hab, hbt⟩ := List.chain_cons.mp hch
    obtain ⟨hp, hall⟩ := ih hbt
    refine ⟨List.pairwise_cons.mpr ⟨hall, hp⟩, ?_⟩
    intro x hx
    rcases List.mem_cons.mp hx with rfl | hx
    · exact hab
    · have := hall x hx; omega

/-- Truncation commutes with mapping a record transformation over the
log. -/
theorem evict_map (g : AlertInfo → AlertInfo) (l : List AlertInfo) :
    (evict l).map g = evict (l.map g) := by
  unfold evict
  rw [List.length_map]
  split
  · exact List.map_drop g l _
  · rfl

/- ### The claims -/

/-- C1: over any sequence of `trigger_alert` calls on one
`AlertSystem` constructed with cooldown `C`, no two accepted calls
have acceptance timestamps closer together than the (clamped)
cooldown: the accepted timestamps are pairwise separated by at least
it.  Moreover an accepted call sets `last_alert_time` to its
acceptance instant, and a call is accepted only when its check
instant is at least a cooldown past `last_alert_time`. -/
theorem c1_cooldown_separation (C : Int) (calls : List Call)
    (h : ∀ c ∈ calls, c.tCheck ≤ c.tSet) :
    (acceptedTimes (runTriggers (AlertSystem.init C) calls).1).Pairwise
      (fun a b => a + (AlertSystem.init C).cooldown ≤ b) ∧
    ∀ (s : AlertSystem) (f : Frame) (d : List String) (cs : List Rat)
      (tC tS : Int) (ok : Bool) (p : String),
      ((s.trigger_alert f d cs tC tS ok p).1).isSome = true →
      (s.trigger_alert f d cs tC tS ok p).2.last_alert_time = tS ∧
      s.cooldown ≤ tC - s.last_alert_time := by
  constructor
  · have hC : 0 ≤ (AlertSystem.init C).cooldown := by
      show (0 : Int) ≤ if C < 0 then 5 else C
      split <;> omega
    exact (chain_pairwise_sep hC (runTriggers_chain calls _ h)).1
  · intro s f d cs tC tS ok p hsome
    obtain ⟨r, hr⟩ := Option.isSome_iff_exists.mp hsome
    obtain ⟨_, _, _, hg, _⟩ := trigger_some_cases hr
    exact ⟨(trigger_some_snd hr).1, hg⟩

/-- Witness for C1 at cooldown 5 and three concrete calls (accepted
at 10, denied at 12, accepted at 15). -/
theorem c1_cooldown_separation_witness :
    ((∀ c ∈ sampleCalls, c.tCheck ≤ c.tSet) ∧
     (acceptedTimes (runTriggers (AlertSystem.init 5) sampleCalls).1).Pairwise
       (fun a b => a + (AlertSystem.init 5).cooldown ≤ b)) ∧
    ((((AlertSystem.init 5).trigger_alert goodFrame ["pistol"] [mkRat 19 20]
        10 10 true "alerts/alert_10.jpg").1).isSome = true ∧
     ((AlertSystem.init 5).trigger_alert goodFrame ["pistol"] [mkRat 19 20]
        10 10 true "alerts/alert_10.jpg").2.last_alert_time = 10 ∧
     (AlertSystem.init 5).cooldown ≤ 10 - (AlertSystem.init 5).last_alert_time) :=
  ⟨⟨by decide, (c1_cooldown_separation 5 sampleCalls (by decide)).1⟩,
   by decide,
   (c1_cooldown_separation 5 sampleCalls (by decide)).2 (AlertSystem.init 5)
     goodFrame ["pistol"] [mkRat 19 20] 10 10 true "alerts/alert_10.jpg"
     (by decide)⟩

/-- C2: the check-and-set is NOT one atomic critical section.
`can_alert` releases the lock before `trigger_alert` reacquires it to
write `last_alert_time`, so two threads that both pass `can_alert`
before either writes both receive gate permission.  Demonstration:
cooldown 5, both threads read clock 10 at their checks; under the
schedule check₀, check₁, set₀, set₁ both finish accepted, with
acceptance instants 10 and 11, only 1 second apart. -/
theorem c2_gate_not_atomic :
    (runGateSched (AlertSystem.init 5)
        [⟨.start, 10, 10⟩, ⟨.start, 10, 11⟩] [0, 1, 0, 1]).2 =
      [⟨.done true, 10, 10⟩, ⟨.done true, 10, 11⟩] ∧
    (11 : Int) - 10 < (AlertSystem.init 5).cooldown := by
  constructor <;> decide

/-- C9: construction is total and clamps: the stored cooldown is
non-negative, fixed across every operation sequence, equals 5 when
the argument was negative and the argument itself otherwise. -/
theorem c9_init_total_clamp (c : Int) (ops : List Op) :
    0 ≤ (AlertSystem.init c).cooldown ∧
    ((AlertSystem.init c).runOps ops).cooldown = (AlertSystem.init c).cooldown ∧
    (c < 0 → (AlertSystem.init c).cooldown = 5) ∧
    (0 ≤ c → (AlertSystem.init c).cooldown = c) := by
  refine ⟨?_, runOps_cooldown ops _, ?_, ?_⟩
  · show (0 : Int) ≤ if c < 0 then 5 else c
    split <;> omega
  · intro h
    show (if c < 0 then (5 : Int) else c) = 5
    rw [if_pos h]
  · intro h
    show (if c < 0 then (5 : Int) else c) = c
    rw [if_neg (not_lt.mpr h)]

/-- Witness for C9 at the clamped argument −3 and the kept argument 7. -/
theorem c9_init_total_clamp_witness :
    (0 ≤ (AlertSystem.init (-3)).cooldown ∧
     ((AlertSystem.init (-3)).runOps sampleOps).cooldown =
       (AlertSystem.init (-3)).cooldown) ∧
    (AlertSystem.init (-3)).cooldown = 5 ∧
    (AlertSystem.init 7).cooldown = 7 :=
  ⟨⟨(c9_init_total_clamp (-3) sampleOps).1,
    (c9_init_total_clamp (-3) sampleOps).2.1⟩,
   (c9_init_total_clamp (-3) sampleOps).2.2.1 (by decide),
   (c9_init_total_clamp 7 sampleOps).2.2.2 (by decide)⟩

/-- C10: `can_alert` is a pure gate query: it leaves the state
exactly as it was, answers true exactly when the clock instant is at
least `last_alert_time + cooldown`, and asking again at the same
instant (on the state it returned) gives the same answer — a true
answer consumes nothing. -/
theorem c10_can_alert_pure (s : AlertSystem) (now : Int) :
    (s.can_alert now).2 = s ∧
    ((s.can_alert now).1 = true ↔ s.cooldown ≤ now - s.last_alert_time) ∧
    ((s.can_alert now).2.can_alert now).1 = (s.can_alert now).1 := by
  refine ⟨rfl, ?_, rfl⟩
  simp [AlertSystem.can_alert, ge_iff_le]

/-- C3: after any operation sequence from construction, the ledger
holds at most 100 records; and every accepted call leaves the ledger
a suffix of the old ledger plus the new record — the most recent
records in order — of length `min (old + 1) 100`, so an append
beyond 100 evicts exactly the oldest. -/
theorem c3_ledger_capacity (C : Int) (ops : List Op) :
    ((AlertSystem.init C).runOps ops).alert_log.length ≤ 100 ∧
    ∀ (s : AlertSystem) (f : Frame) (d : List String) (cs : List Rat)
      (tC tS : Int) (ok : Bool) (p : String) (r : AlertInfo),
      (s.trigger_alert f d cs tC tS ok p).1 = some r →
      (s.trigger_alert f d cs tC tS ok p).2.alert_log <:+ s.alert_log ++ [r] ∧
      (s.trigger_alert f d cs tC tS ok p).2.alert_log.length =
        min (s.alert_log.length + 1) 100 := by
  constructor
  · exact runOps_length_le ops (by simp [AlertSystem.init])
  · intro s f d cs tC tS ok p r hr
    obtain ⟨hf, hsz, hd, hg, hr'⟩ := trigger_some_cases hr
    subst hr'
    rw [trigger_accept_eq s f d cs tC tS ok p hf hsz hd hg]
    refine ⟨evict_suffix _, ?_⟩
    show (evict _).length = _
    rw [evict_length]
    simp

/-- Witness for C3 on a mixed operation sequence and one concrete
accepted call. -/
theorem c3_ledger_capacity_witness :
    ((AlertSystem.init 5).runOps sampleOps).alert_log.length ≤ 100 ∧
    ((AlertSystem.init 5).trigger_alert goodFrame ["pistol"] [mkRat 19 20]
        10 10 true "alerts/alert_10.jpg").1 =
      some (mkInfo 10 ["pistol"] [mkRat 19 20] true "alerts/alert_10.jpg") ∧
    (((AlertSystem.init 5).trigger_alert goodFrame ["pistol"] [mkRat 19 20]
        10 10 true "alerts/alert_10.jpg").2.alert_log <:+
      (AlertSystem.init 5).alert_log ++
        [mkInfo 10 ["pistol"] [mkRat 19 20] true "alerts/alert_10.jpg"]) ∧
    ((AlertSystem.init 5).trigger_alert goodFrame ["pistol"] [mkRat 19 20]
        10 10 true "alerts/alert_10.jpg").2.alert_log.length =
      min ((AlertSystem.init 5).alert_log.length + 1) 100 :=
  ⟨(c3_ledger_capacity 5 sampleOps).1,
   by decide,
   ((c3_ledger_capacity 5 sampleOps).2 (AlertSystem.init 5) goodFrame
      ["pistol"] [mkRat 19 20] 10 10 true "alerts/alert_10.jpg"
      (mkInfo 10 ["pistol"] [mkRat 19 20] true "alerts/alert_10.jpg")
      (by decide)).1,
   ((c3_ledger_capacity 5 sampleOps).2 (AlertSystem.init 5) goodFrame
      ["pistol"] [mkRat 19 20] 10 10 true "alerts/alert_10.jpg"
      (mkInfo 10 ["pistol"] [mkRat 19 20] true "alerts/alert_10.jpg")
      (by decide)).2⟩

/-- C4 counterexample: `get_recent_alerts 0` on a one-record ledger
returns that record — the Python slice `alert_log[-0:]` is the whole
list — so "at most `count` records for every non-negative `count`"
fails at `count = 0`. -/
theorem c4_recent_zero_counterexample :
    ¬ (((sampleState.get_recent_alerts 0).1).length ≤ 0) := by decide

/-- C4 (amended): for every positive `count`, `get_recent_alerts`
returns exactly the `min count length` most-recent records — a suffix
of the ledger, newest last — and leaves the state unchanged (the
returned list is an independent value). -/
theorem c4_recent_amended (s : AlertSystem) (count : Nat) (h : 1 ≤ count) :
    ((s.get_recent_alerts count).1).length = min count s.alert_log.length ∧
    (s.get_recent_alerts count).1 <:+ s.alert_log ∧
    (s.get_recent_alerts count).2 = s := by
  have hc : count ≠ 0 := by omega
  by_cases hemp : s.alert_log.isEmpty
  · have he : s.alert_log = [] := by simpa using hemp
    refine ⟨?_, ?_, rfl⟩
    · show (if s.alert_log.isEmpty then [] else _).length = _
      rw [hemp, if_pos rfl, he]
      simp
    · show (if s.alert_log.isEmpty then [] else _) <:+ _
      rw [hemp, if_pos rfl]
      exact List.nil_suffix
  · refine ⟨?_, ?_, rfl⟩
    · show (if s.alert_log.isEmpty then [] else if count = 0 then s.alert_log
        else s.alert_log.drop (s.alert_log.length - count)).length = _
      rw [if_neg (by simp [hemp]), if_neg hc, List.length_drop]
      omega
    · show (if s.alert_log.isEmpty then [] else if count = 0 then s.alert_log
        else s.alert_log.drop (s.alert_log.length - count)) <:+ _
      rw [if_neg (by simp [hemp]), if_neg hc]
      exact List.drop_suffix _ _

/-- Witness for C4 (amended) on the one-record state at `count = 2`. -/
theorem c4_recent_amended_witness :
    ((sampleState.get_recent_alerts 2).1).length =
      min 2 sampleState.alert_log.length ∧
    (sampleState.get_recent_alerts 2).1 <:+ sampleState.alert_log ∧
    (sampleState.get_recent_alerts 2).2 = sampleState :=
  c4_recent_amended sampleState 2 (by decide)

/-- C5: a call with an invalid frame (`None`, non-array, or size 0)
or an empty detections list returns `None` and returns the state
exactly as it was: gate untouched, cooldown not consumed, nothing
appended. -/
theorem c5_precondition_rejection (s : AlertSystem) (f : Frame)
    (d : List String) (cs : List Rat) (tC tS : Int) (ok : Bool) (p : String)
    (h : f.isInvalid = true ∨ f.size = 0 ∨ d = []) :
    s.trigger_alert f d cs tC tS ok p = (none, s) := by
  rcases h with h | h | h
  · exact trigger_reject_eq s f d cs tC tS ok p (Or.inl h)
  · exact trigger_reject_eq s f d cs tC tS ok p (Or.inr (Or.inl h))
  · exact trigger_reject_eq s f d cs tC tS ok p (Or.inr (Or.inr (Or.inl h)))

/-- Witness for C5: a `None` frame, an empty array frame, and an
empty detections list, each rejected without a state change. -/
theorem c5_precondition_rejection_witness :
    (AlertSystem.init 5).trigger_alert .noneFrame ["pistol"] [1] 10 10 true "p" =
      (none, AlertSystem.init 5) ∧
    (AlertSystem.init 5).trigger_alert (.array 0) ["pistol"] [1] 10 10 true "p" =
      (none, AlertSystem.init 5) ∧
    (AlertSystem.init 5).trigger_alert goodFrame [] [] 10 10 true "p" =
      (none, AlertSystem.init 5) :=
  ⟨c5_precondition_rejection _ _ _ _ _ _ _ _ (by decide),
   c5_precondition_rejection _ _ _ _ _ _ _ _ (by decide),
   c5_precondition_rejection _ _ _ _ _ _ _ _ (by decide)⟩

/-- C6: when the gate grants and the screenshot write fails, the call
still returns a record whose screenshot field is `None`, and the gate
and ledger are updated exactly as on a successful write: same
`last_alert_time`, same cooldown, same ledger length, and the same
ledger contents up to the screenshot field. -/
theorem c6_screenshot_failure (s : AlertSystem) (f : Frame) (d : List String)
    (cs : List Rat) (tC tS : Int) (p : String)
    (hf : f.isInvalid = false) (hs : f.size ≠ 0) (hd : d ≠ [])
    (hg : s.cooldown ≤ tC - s.last_alert_time) :
    (s.trigger_alert f d cs tC tS false p).1 = some (mkInfo tS d cs false p) ∧
    (mkInfo tS d cs false p).screenshot = none ∧
    (s.trigger_alert f d cs tC tS false p).2.last_alert_time =
      (s.trigger_alert f d cs tC tS true p).2.last_alert_time ∧
    (s.trigger_alert f d cs tC tS false p).2.cooldown =
      (s.trigger_alert f d cs tC tS true p).2.cooldown ∧
    (s.trigger_alert f d cs tC tS false p).2.alert_log.length =
      (s.trigger_alert f d cs tC tS true p).2.alert_log.length ∧
    (s.trigger_alert f d cs tC tS false p).2.alert_log.map forgetShot =
      (s.trigger_alert f d cs tC tS true p).2.alert_log.map forgetShot := by
  rw [trigger_accept_eq s f d cs tC tS false p hf hs hd hg,
      trigger_accept_eq s f d cs tC tS true p hf hs hd hg]
  refine ⟨rfl, rfl, rfl, rfl, ?_, ?_⟩
  · show (evict _).length = (evict _).length
    rw [evict_length, evict_length]
    simp
  · show (evict _).map forgetShot = (evict _).map forgetShot
    rw [evict_map, evict_map]
    simp [forgetShot, mkInfo]

/-- Witness for C6 at a concrete granted call with a failing write. -/
theorem c6_screenshot_failure_witness :
    ((AlertSystem.init 5).trigger_alert goodFrame ["pistol"] [mkRat 19 20]
        10 10 false "alerts/alert_10.jpg").1 =
      some (mkInfo 10 ["pistol"] [mkRat 19 20] false "alerts/alert_10.jpg") ∧
    (mkInfo 10 ["pistol"] [mkRat 19 20] false "alerts/alert_10.jpg").screenshot =
      none ∧
    ((AlertSystem.init 5).trigger_alert goodFrame ["pistol"] [mkRat 19 20]
        10 10 false "alerts/alert_10.jpg").2.alert_log.map forgetShot =
      ((AlertSystem.init 5).trigger_alert goodFrame ["pistol"] [mkRat 19 20]
        10 10 true "alerts/alert_10.jpg").2.alert_log.map forgetShot :=
  ⟨(c6_screenshot_failure _ _ _ _ _ _ _ (by decide) (by decide) (by decide)
      (by decide)).1,
   (c6_screenshot_failure (AlertSystem.init 5) goodFrame ["pistol"]
      [mkRat 19 20] 10 10 "alerts/alert_10.jpg" (by decide) (by decide)
      (by decide) (by decide)).2.1,
   (c6_screenshot_failure (AlertSystem.init 5) goodFrame ["pistol"]
      [mkRat 19 20] 10 10 "alerts/alert_10.jpg" (by decide) (by decide)
      (by decide) (by decide)).2.2.2.2.2⟩

/-- C7: after an accepted call whose acceptance instant is `tS1`, a
second call checking less than a cooldown after `tS1` returns `None`,
and a second valid call checking at least a cooldown after `tS1`
returns a new record. -/
theorem c7_second_call (s : AlertSystem) (f1 : Frame) (d1 : List String)
    (cs1 : List Rat) (tC1 tS1 : Int) (ok1 : Bool) (p1 : String)
    (h1 : ((s.trigger_alert f1 d1 cs1 tC1 tS1 ok1 p1).1).isSome = true) :
    (∀ (f2 : Frame) (d2 : List String) (cs2 : List Rat) (tC2 tS2 : Int)
       (ok2 : Bool) (p2 : String), tC2 - tS1 < s.cooldown →
      ((s.trigger_alert f1 d1 cs1 tC1 tS1 ok1 p1).2.trigger_alert
        f2 d2 cs2 tC2 tS2 ok2 p2).1 = none) ∧
    (∀ (f2 : Frame) (d2 : List String) (cs2 : List Rat) (tC2 tS2 : Int)
       (ok2 : Bool) (p2 : String),
      s.cooldown ≤ tC2 - tS1 → f2.isInvalid = false → f2.size ≠ 0 → d2 ≠ [] →
      (((s.trigger_alert f1 d1 cs1 tC1 tS1 ok1 p1).2.trigger_alert
        f2 d2 cs2 tC2 tS2 ok2 p2).1).isSome = true) := by
  obtain ⟨r, hr⟩ := Option.isSome_iff_exists.mp h1
  obtain ⟨hlast, hcd⟩ := trigger_some_snd hr
  constructor
  · intro f2 d2 cs2 tC2 tS2 ok2 p2 hlt
    have hlt' : tC2 - (s.trigger_alert f1 d1 cs1 tC1 tS1 ok1 p1).2.last_alert_time <
        (s.trigger_alert f1 d1 cs1 tC1 tS1 ok1 p1).2.cooldown := by
      rw [hlast, hcd]; exact hlt
    rw [trigger_reject_eq _ f2 d2 cs2 tC2 tS2 ok2 p2
      (Or.inr (Or.inr (Or.inr hlt')))]
  · intro f2 d2 cs2 tC2 tS2 ok2 p2 hge hf2 hs2 hd2
    have hg2 : (s.trigger_alert f1 d1 cs1 tC1 tS1 ok1 p1).2.cooldown ≤
        tC2 - (s.trigger_alert f1 d1 cs1 tC1 tS1 ok1 p1).2.last_alert_time := by
      rw [hlast, hcd]; exact hge
    rw [trigger_accept_eq _ f2 d2 cs2 tC2 tS2 ok2 p2 hf2 hs2 hd2 hg2]
    rfl

/-- Witness for C7: accepted at 10, denied at 12, accepted again
at 15 with cooldown 5. -/
theorem c7_second_call_witness :
    ((((AlertSystem.init 5).trigger_alert goodFrame ["pistol"] [mkRat 19 20]
        10 10 true "a").1).isSome = true) ∧
    (((AlertSystem.init 5).trigger_alert goodFrame ["pistol"] [mkRat 19 20]
        10 10 true "a").2.trigger_alert goodFrame ["knife"] [mkRat 3 5]
        12 12 true "b").1 = none ∧
    ((((AlertSystem.init 5).trigger_alert goodFrame ["pistol"] [mkRat 19 20]
        10 10 true "a").2.trigger_alert goodFrame ["knife"] [mkRat 3 5]
        15 15 true "c").1).isSome = true :=
  ⟨by decide,
   (c7_second_call (AlertSystem.init 5) goodFrame ["pistol"] [mkRat 19 20]
      10 10 true "a" (by decide)).1 goodFrame ["knife"] [mkRat 3 5]
      12 12 true "b" (by decide),
   (c7_second_call (AlertSystem.init 5) goodFrame ["pistol"] [mkRat 19 20]
      10 10 true "a" (by decide)).2 goodFrame ["knife"] [mkRat 3 5]
      15 15 true "c" (by decide) (by decide) (by decide) (by decide)⟩

/-- C8: `detect` absorbs per-frame errors instead of raising — in the
embedding every exception the source catches is an explicit
`InferOutcome` and `detect` is a total function on it — and a raising
inference yields the original frame with no detections, no scores,
and `has_detection = false`, whether or not the model is loaded. -/
theorem c8_detect_absorbs_failure (dt : WeaponDetector) (frame : Frame)
    (hv : frame.isInvalid = false) (hs : frame.size ≠ 0) :
    (dt.detect frame .raise).1 = ⟨frame, [], [], false⟩ := by
  by_cases hm : dt.model_loaded
  · simp [WeaponDetector.detect, hv, hs, hm]
  · simp [WeaponDetector.detect, hv, hs, hm]

/-- Witness for C8 on a loaded detector and a valid frame. -/
theorem c8_detect_absorbs_failure_witness :
    (sampleDetector.detect goodFrame .raise).1 = ⟨goodFrame, [], [], false⟩ :=
  c8_detect_absorbs_failure sampleDetector goodFrame (by decide) (by decide)

end SentinelShield
